import Mathlib

/-
Verification of the NetActuate Terraform provider's stateful test backend
(`FakeClient` in netactuate/testing_fake.go) and of provider configuration
(`providerConfigure` in provider.go, `FrameworkProvider.Configure` in
netactuate/provider_framework.go).

The Go code is shallowly embedded: Go maps become association lists over
`Int` keys (first occurrence wins on lookup, mirroring that map keys are
unique), Go `int` becomes `Int`, Go errors become values of `GoError`
carrying the message, and every `FakeClient` method becomes a pure function
from the client state to a result paired with the next state.
-/

namespace NetActuate

/-- A Go `error` value, identified by its message (the fake backend builds
errors with `fmt.Errorf` and tests inspect messages). Injected errors are
arbitrary values of this type. -/
structure GoError where
  message : String
  deriving DecidableEq, Repr

/-- Go map lookup `m[k]` on an association list (first occurrence wins). -/
def lookupA {α : Type} (k : Int) : List (Int × α) → Option α
  | [] => none
  | (k', v) :: rest => if k = k' then some v else lookupA k rest

/-- Go map assignment `m[k] = v`: replace the first binding of `k`, or append. -/
def insertA {α : Type} (k : Int) (v : α) : List (Int × α) → List (Int × α)
  | [] => [(k, v)]
  | (k', v') :: rest => if k = k' then (k, v) :: rest else (k', v') :: insertA k v rest

/-- Go `delete(m, k)`: remove every binding of `k`. -/
def eraseA {α : Type} (k : Int) : List (Int × α) → List (Int × α)
  | [] => []
  | (k', v) :: rest => if k' = k then eraseA k rest else (k', v) :: eraseA k rest

/-- Lowercase hex digit, as produced by Go's `%x` verb. -/
def hexDigitChar (n : Nat) : Char :=
  if n < 10 then Char.ofNat (48 + n) else Char.ofNat (87 + n)

/-- Fuel-driven hex printer (fuel is always sufficient at `n + 1`). -/
def natToHexAux : Nat → Nat → String
  | 0, _ => ""
  | fuel + 1, n =>
    if n < 16 then String.mk [hexDigitChar n]
    else natToHexAux fuel (n / 16) ++ String.mk [hexDigitChar (n % 16)]

/-- Hexadecimal rendering of a natural number, lowercase, no padding. -/
def natToHex (n : Nat) : String := natToHexAux (n + 1) n

/-- Go's `fmt.Sprintf("%x", i)` for an `int`. -/
def intToHex (i : Int) : String :=
  if i < 0 then "-" ++ natToHex i.natAbs else natToHex i.natAbs

/-- Go's `%` operator on `int` (truncated remainder, sign of the dividend). -/
def goMod (a b : Int) : Int := Int.tmod a b

/-- gona.Server — the fields the provider reads or writes. -/
structure Server where
  ID : Int := 0
  Name : String := ""
  OS : String := ""
  OSID : Int := 0
  Location : String := ""
  LocationID : Int := 0
  PlanID : Int := 0
  Package : String := ""
  PackageBilling : String := ""
  PackageBillingContractId : String := ""
  ServerStatus : String := ""
  PowerStatus : String := ""
  Installed : Int := 0
  PrimaryIPv4 : String := ""
  PrimaryIPv6 : String := ""
  deriving DecidableEq, Repr

/-- gona.CreateServerRequest — the fields the fake backend reads. -/
structure CreateServerRequest where
  FQDN : String := ""
  Plan : String := ""
  Location : Int := 0
  Image : Int := 0
  PackageBilling : String := ""
  PackageBillingContractId : String := ""
  deriving DecidableEq, Repr

/-- gona.BuildServerRequest — the fields the fake backend reads. -/
structure BuildServerRequest where
  FQDN : String := ""
  Location : Int := 0
  Image : Int := 0
  PackageBilling : String := ""
  PackageBillingContractId : String := ""
  deriving DecidableEq, Repr

/-- gona.ServerBuild — the build-result echo. -/
structure ServerBuild where
  ServerID : Int := 0
  Status : String := ""
  Build : Int := 0
  deriving DecidableEq, Repr

/-- gona.SSHKey. -/
structure SSHKey where
  ID : Int := 0
  Name : String := ""
  Key : String := ""
  Fingerprint : String := ""
  deriving DecidableEq, Repr

/-- gona.BGPSession. -/
structure BGPSession where
  ID : Int := 0
  CustomerIP : String := ""
  GroupID : Int := 0
  ProviderIPType : String := ""
  ProviderAsn : Int := 0
  CustomerAsn : Int := 0
  State : String := ""
  ConfigStatus : Int := 0
  deriving DecidableEq, Repr

/-- gona.IP — one address record. -/
structure IP where
  ID : Int := 0
  IP : String := ""
  Primary : Int := 0
  Gateway : String := ""
  Netmask : String := ""
  deriving DecidableEq, Repr

/-- gona.IPs — a per-server address allocation. -/
structure IPs where
  IPv4 : List IP := []
  IPv6 : List IP := []
  deriving DecidableEq, Repr

/-- gona.Location. -/
structure Location where
  ID : Int := 0
  Name : String := ""
  IATACode : String := ""
  Continent : String := ""
  deriving DecidableEq, Repr

/-- gona.OS (`Type` is a Lean keyword, rendered `Typ`). -/
structure OS where
  ID : Int := 0
  Os : String := ""
  Typ : String := ""
  Bits : String := ""
  deriving DecidableEq, Repr

deriving instance DecidableEq for Except

/-- FakeClient — the in-memory fake backend state (testing_fake.go). -/
structure FakeClient where
  servers : List (Int × Server) := []
  sshKeys : List (Int × SSHKey) := []
  bgpSessions : List (Int × List BGPSession) := []
  ips : List (Int × IPs) := []
  locations : List Location := []
  oses : List OS := []
  nextServerID : Int := 0
  nextSSHKeyID : Int := 0
  nextBGPSessionID : Int := 0
  CreateServerError : Option GoError := none
  GetServerError : Option GoError := none
  BuildServerError : Option GoError := none
  DeleteServerError : Option GoError := none
  UnlinkServerError : Option GoError := none
  CreateSSHKeyError : Option GoError := none
  GetSSHKeyError : Option GoError := none
  DeleteSSHKeyError : Option GoError := none
  CreateBGPSessionsError : Option GoError := none
  GetBGPSessionsError : Option GoError := none
  GetIPsError : Option GoError := none
  GetLocationsError : Option GoError := none
  GetOSsError : Option GoError := none
  calls : List String := []
  deriving DecidableEq, Repr

/-- NewFakeClient: fresh backend with default test data. -/
def newFakeClient : FakeClient where
  servers := []
  sshKeys := []
  bgpSessions := []
  ips := []
  nextServerID := 1000
  nextSSHKeyID := 100
  nextBGPSessionID := 500
  locations := [
    { ID := 1, Name := "AMS Amsterdam", IATACode := "AMS", Continent := "EU" },
    { ID := 2, Name := "LAX Los Angeles", IATACode := "LAX", Continent := "NA" },
    { ID := 3, Name := "SJC San Jose", IATACode := "SJC", Continent := "NA" }]
  oses := [
    { ID := 1, Os := "Ubuntu 22.04 LTS", Typ := "linux", Bits := "64" },
    { ID := 2, Os := "Debian 12", Typ := "linux", Bits := "64" },
    { ID := 3, Os := "Rocky Linux 9", Typ := "linux", Bits := "64" }]

/-- trackCall: append to the ordered call log. -/
def trackCall (f : FakeClient) (c : String) : FakeClient :=
  { f with calls := f.calls ++ [c] }

/-- The server record CreateServer stores for an allocated id: fields copied
from the request, status RUNNING, addresses synthesized from the id, OS and
location names resolved by id from the reference lists (first match; empty
when no entry matches). -/
def createdServer (oses : List OS) (locations : List Location)
    (serverID : Int) (r : CreateServerRequest) : Server :=
  let osName := match oses.find? (fun o => o.ID == r.Image) with
    | some o => o.Os
    | none => ""
  let locName := match locations.find? (fun l => l.ID == r.Location) with
    | some l => l.Name
    | none => ""
  { ID := serverID
    Name := r.FQDN
    OSID := r.Image
    LocationID := r.Location
    PlanID := 1
    Package := r.Plan
    PackageBilling := r.PackageBilling
    PackageBillingContractId := r.PackageBillingContractId
    ServerStatus := "RUNNING"
    PowerStatus := "on"
    Installed := 1
    PrimaryIPv4 := "192.0.2." ++ toString (goMod serverID 256)
    PrimaryIPv6 := "2001:db8::" ++ intToHex serverID
    OS := osName
    Location := locName }

/-- FakeClient.CreateServer. -/
def createServer (f0 : FakeClient) (r : CreateServerRequest) :
    Except GoError ServerBuild × FakeClient :=
  let f := trackCall f0 "CreateServer"
  match f.CreateServerError with
  | some e => (Except.error e, f)
  | none =>
    let serverID := f.nextServerID
    (Except.ok { ServerID := serverID, Status := "building", Build := 1 },
      { f with nextServerID := f.nextServerID + 1,
               servers := insertA serverID (createdServer f.oses f.locations serverID r) f.servers })

/-- The not-found error for servers, as built by `fmt.Errorf`. -/
def serverNotFound (id : Int) : GoError :=
  { message := "server " ++ toString id ++ " not found" }

/-- FakeClient.GetServer. -/
def getServer (f0 : FakeClient) (id : Int) : Except GoError Server × FakeClient :=
  let f := trackCall f0 ("GetServer(" ++ toString id ++ ")")
  match f.GetServerError with
  | some e => (Except.error e, f)
  | none =>
    match lookupA id f.servers with
    | none => (Except.error (serverNotFound id), f)
    | some server => (Except.ok server, f)

/-- The in-place update BuildServer applies to an existing record: mutable
fields overwritten from the request, OS/location names re-resolved (kept
when no entry matches), status forced back to RUNNING. -/
def builtServer (oses : List OS) (locations : List Location)
    (server : Server) (r : BuildServerRequest) : Server :=
  let osName := match oses.find? (fun o => o.ID == r.Image) with
    | some o => o.Os
    | none => server.OS
  let locName := match locations.find? (fun l => l.ID == r.Location) with
    | some l => l.Name
    | none => server.Location
  { server with
    Name := r.FQDN
    OSID := r.Image
    LocationID := r.Location
    PackageBilling := r.PackageBilling
    PackageBillingContractId := r.PackageBillingContractId
    ServerStatus := "RUNNING"
    OS := osName
    Location := locName }

/-- FakeClient.BuildServer. -/
def buildServer (f0 : FakeClient) (id : Int) (r : BuildServerRequest) :
    Except GoError ServerBuild × FakeClient :=
  let f := trackCall f0 ("BuildServer(" ++ toString id ++ ")")
  match f.BuildServerError with
  | some e => (Except.error e, f)
  | none =>
    match lookupA id f.servers with
    | none => (Except.error (serverNotFound id), f)
    | some server =>
      (Except.ok { ServerID := id, Status := "building", Build := 1 },
        { f with servers := insertA id (builtServer f.oses f.locations server r) f.servers })

/-- FakeClient.DeleteServer (soft delete: marks TERMINATED, keeps record). -/
def deleteServer (f0 : FakeClient) (id : Int) (cancelBilling : Bool) :
    Except GoError Unit × FakeClient :=
  let f := trackCall f0 ("DeleteServer(" ++ toString id ++ ", " ++ toString cancelBilling ++ ")")
  match f.DeleteServerError with
  | some e => (Except.error e, f)
  | none =>
    match lookupA id f.servers with
    | none => (Except.error (serverNotFound id), f)
    | some server =>
      (Except.ok (),
        { f with servers := insertA id { server with ServerStatus := "TERMINATED" } f.servers })

/-- FakeClient.UnlinkServer (hard removal, unconditional). -/
def unlinkServer (f0 : FakeClient) (id : Int) : Except GoError Unit × FakeClient :=
  let f := trackCall f0 ("UnlinkServer(" ++ toString id ++ ")")
  match f.UnlinkServerError with
  | some e => (Except.error e, f)
  | none => (Except.ok (), { f with servers := eraseA id f.servers })

/-- The not-found error for SSH keys, as built by `fmt.Errorf`. -/
def sshKeyNotFound (id : Int) : GoError :=
  { message := "ssh key " ++ toString id ++ " not found" }

/-- FakeClient.CreateSSHKey. -/
def createSSHKey (f0 : FakeClient) (name key : String) :
    Except GoError SSHKey × FakeClient :=
  let f := trackCall f0 ("CreateSSHKey(" ++ name ++ ")")
  match f.CreateSSHKeyError with
  | some e => (Except.error e, f)
  | none =>
    let keyID := f.nextSSHKeyID
    let sshKey : SSHKey :=
      { ID := keyID
        Name := name
        Key := key
        Fingerprint := "SHA256:fake-fingerprint-" ++ toString keyID }
    (Except.ok sshKey,
      { f with nextSSHKeyID := f.nextSSHKeyID + 1,
               sshKeys := insertA keyID sshKey f.sshKeys })

/-- FakeClient.GetSSHKey. -/
def getSSHKey (f0 : FakeClient) (id : Int) : Except GoError SSHKey × FakeClient :=
  let f := trackCall f0 ("GetSSHKey(" ++ toString id ++ ")")
  match f.GetSSHKeyError with
  | some e => (Except.error e, f)
  | none =>
    match lookupA id f.sshKeys with
    | none => (Except.error (sshKeyNotFound id), f)
    | some key => (Except.ok key, f)

/-- FakeClient.DeleteSSHKey. -/
def deleteSSHKey (f0 : FakeClient) (id : Int) : Except GoError Unit × FakeClient :=
  let f := trackCall f0 ("DeleteSSHKey(" ++ toString id ++ ")")
  match f.DeleteSSHKeyError with
  | some e => (Except.error e, f)
  | none =>
    match lookupA id f.sshKeys with
    | none => (Except.error (sshKeyNotFound id), f)
    | some _ => (Except.ok (), { f with sshKeys := eraseA id f.sshKeys })

/-- FakeClient.CreateBGPSessions. -/
def createBGPSessions (f0 : FakeClient) (mbPkgID groupID : Int)
    (isIPV6 redundant : Bool) : Except GoError BGPSession × FakeClient :=
  let f := trackCall f0 ("CreateBGPSessions(" ++ toString mbPkgID ++ ", " ++
    toString groupID ++ ", " ++ toString isIPV6 ++ ", " ++ toString redundant ++ ")")
  match f.CreateBGPSessionsError with
  | some e => (Except.error e, f)
  | none =>
    let sessionID := f.nextBGPSessionID
    let ipType := if isIPV6 then "IPv6" else "IPv4"
    let customerIP :=
      if isIPV6 then "2001:db8:bgp::" ++ intToHex sessionID
      else "198.51.100." ++ toString (goMod sessionID 256)
    let session : BGPSession :=
      { ID := sessionID
        CustomerIP := customerIP
        GroupID := groupID
        ProviderIPType := ipType
        ProviderAsn := 64512
        CustomerAsn := 65000
        State := "established"
        ConfigStatus := 1 }
    let existing := match lookupA mbPkgID f.bgpSessions with
      | some l => l
      | none => []
    (Except.ok session,
      { f with nextBGPSessionID := f.nextBGPSessionID + 1,
               bgpSessions := insertA mbPkgID (existing ++ [session]) f.bgpSessions })

/-- FakeClient.GetBGPSessions. -/
def getBGPSessions (f0 : FakeClient) (mbPkgID : Int) :
    Except GoError (List BGPSession) × FakeClient :=
  let f := trackCall f0 ("GetBGPSessions(" ++ toString mbPkgID ++ ")")
  match f.GetBGPSessionsError with
  | some e => (Except.error e, f)
  | none =>
    match lookupA mbPkgID f.bgpSessions with
    | none => (Except.ok [], f)
    | some sessions => (Except.ok sessions, f)

/-- FakeClient.GetIPs. -/
def getIPs (f0 : FakeClient) (mbPkgID : Int) : Except GoError IPs × FakeClient :=
  let f := trackCall f0 ("GetIPs(" ++ toString mbPkgID ++ ")")
  match f.GetIPsError with
  | some e => (Except.error e, f)
  | none =>
    match lookupA mbPkgID f.ips with
    | some ips => (Except.ok ips, f)
    | none =>
      match lookupA mbPkgID f.servers with
      | some _ =>
        (Except.ok
          { IPv4 := [{ ID := 1, IP := "192.0.2." ++ toString (goMod mbPkgID 256),
                       Primary := 1, Gateway := "192.0.2.1", Netmask := "255.255.255.0" }]
            IPv6 := [{ ID := 2, IP := "2001:db8::" ++ intToHex mbPkgID,
                       Primary := 1, Gateway := "2001:db8::1",
                       Netmask := "ffff:ffff:ffff:ffff::" }] }, f)
      | none => (Except.ok { IPv4 := [], IPv6 := [] }, f)

/-- FakeClient.GetLocations. -/
def getLocations (f0 : FakeClient) : Except GoError (List Location) × FakeClient :=
  let f := trackCall f0 "GetLocations"
  match f.GetLocationsError with
  | some e => (Except.error e, f)
  | none => (Except.ok f.locations, f)

/-- FakeClient.GetOSs. -/
def getOSs (f0 : FakeClient) : Except GoError (List OS) × FakeClient :=
  let f := trackCall f0 "GetOSs"
  match f.GetOSsError with
  | some e => (Except.error e, f)
  | none => (Except.ok f.oses, f)

/-- FakeClient.AddServer test helper: raw insertion at the record's own ID. -/
def addServer (f : FakeClient) (server : Server) : FakeClient :=
  { f with servers := insertA server.ID server f.servers }

/-- FakeClient.SetIPs test helper. -/
def setIPs (f : FakeClient) (mbPkgID : Int) (ips : IPs) : FakeClient :=
  { f with ips := insertA mbPkgID ips f.ips }

/-- One call through the ClientInterface surface of the fake backend
(test helpers such as AddServer excluded). -/
inductive Op where
  | createServerOp (r : CreateServerRequest)
  | getServerOp (id : Int)
  | buildServerOp (id : Int) (r : BuildServerRequest)
  | deleteServerOp (id : Int) (cancelBilling : Bool)
  | unlinkServerOp (id : Int)
  | createSSHKeyOp (name key : String)
  | getSSHKeyOp (id : Int)
  | deleteSSHKeyOp (id : Int)
  | createBGPSessionsOp (mbPkgID groupID : Int) (isIPV6 redundant : Bool)
  | getBGPSessionsOp (mbPkgID : Int)
  | getIPsOp (mbPkgID : Int)
  | getLocationsOp
  | getOSsOp
  deriving DecidableEq, Repr

/-- Sum of the operations' success-result types. -/
inductive OpOut where
  | buildOut (b : ServerBuild)
  | serverOut (s : Server)
  | unitOut
  | sshKeyOut (k : SSHKey)
  | sessionOut (s : BGPSession)
  | sessionsOut (l : List BGPSession)
  | ipsOut (i : IPs)
  | locationsOut (l : List Location)
  | osesOut (l : List OS)
  deriving DecidableEq, Repr

/-- Dispatch one operation against the fake backend. -/
def runOpE (f : FakeClient) : Op → Except GoError OpOut × FakeClient
  | .createServerOp r =>
    let p := createServer f r; (p.1.map .buildOut, p.2)
  | .getServerOp id =>
    let p := getServer f id; (p.1.map .serverOut, p.2)
  | .buildServerOp id r =>
    let p := buildServer f id r; (p.1.map .buildOut, p.2)
  | .deleteServerOp id cb =>
    let p := deleteServer f id cb; (p.1.map (fun _ => .unitOut), p.2)
  | .unlinkServerOp id =>
    let p := unlinkServer f id; (p.1.map (fun _ => .unitOut), p.2)
  | .createSSHKeyOp name key =>
    let p := createSSHKey f name key; (p.1.map .sshKeyOut, p.2)
  | .getSSHKeyOp id =>
    let p := getSSHKey f id; (p.1.map .sshKeyOut, p.2)
  | .deleteSSHKeyOp id =>
    let p := deleteSSHKey f id; (p.1.map (fun _ => .unitOut), p.2)
  | .createBGPSessionsOp m g v6 red =>
    let p := createBGPSessions f m g v6 red; (p.1.map .sessionOut, p.2)
  | .getBGPSessionsOp m =>
    let p := getBGPSessions f m; (p.1.map .sessionsOut, p.2)
  | .getIPsOp m =>
    let p := getIPs f m; (p.1.map .ipsOut, p.2)
  | .getLocationsOp =>
    let p := getLocations f; (p.1.map .locationsOut, p.2)
  | .getOSsOp =>
    let p := getOSs f; (p.1.map .osesOut, p.2)

/-- The state after one operation. -/
def runOp (f : FakeClient) (op : Op) : FakeClient := (runOpE f op).2

/-- The state after a sequence of operations. -/
def runOps (f : FakeClient) : List Op → FakeClient
  | [] => f
  | op :: rest => runOps (runOp f op) rest

/-- The injected-error field consulted by an operation. -/
def opError (f : FakeClient) : Op → Option GoError
  | .createServerOp _ => f.CreateServerError
  | .getServerOp _ => f.GetServerError
  | .buildServerOp _ _ => f.BuildServerError
  | .deleteServerOp _ _ => f.DeleteServerError
  | .unlinkServerOp _ => f.UnlinkServerError
  | .createSSHKeyOp _ _ => f.CreateSSHKeyError
  | .getSSHKeyOp _ => f.GetSSHKeyError
  | .deleteSSHKeyOp _ => f.DeleteSSHKeyError
  | .createBGPSessionsOp _ _ _ _ => f.CreateBGPSessionsError
  | .getBGPSessionsOp _ => f.GetBGPSessionsError
  | .getIPsOp _ => f.GetIPsError
  | .getLocationsOp => f.GetLocationsError
  | .getOSsOp => f.GetOSsError

/-- The entity state of the fake backend: everything except the call log
and the injected-error configuration. -/
structure Entities where
  servers : List (Int × Server)
  sshKeys : List (Int × SSHKey)
  bgpSessions : List (Int × List BGPSession)
  ips : List (Int × IPs)
  locations : List Location
  oses : List OS
  nextServerID : Int
  nextSSHKeyID : Int
  nextBGPSessionID : Int
  deriving DecidableEq, Repr

/-- Project the entity state out of a FakeClient. -/
def FakeClient.entities (f : FakeClient) : Entities :=
  { servers := f.servers
    sshKeys := f.sshKeys
    bgpSessions := f.bgpSessions
    ips := f.ips
    locations := f.locations
    oses := f.oses
    nextServerID := f.nextServerID
    nextSSHKeyID := f.nextSSHKeyID
    nextBGPSessionID := f.nextBGPSessionID }

/-- The server ids returned by the successful CreateServer calls of a
run, in call order. -/
def issuedIds : FakeClient → List Op → List Int
  | _, [] => []
  | f, op :: rest =>
    match op with
    | .createServerOp r =>
      (match createServer f r with
       | (Except.ok b, f') => b.ServerID :: issuedIds f' rest
       | (Except.error _, f') => issuedIds f' rest)
    | _ => issuedIds (runOp f op) rest

/-- The number of CreateServer calls in a sequence. -/
def countCreates : List Op → Nat
  | [] => 0
  | Op.createServerOp _ :: rest => countCreates rest + 1
  | _ :: rest => countCreates rest

theorem lookupA_insertA_self {α : Type} (k : Int) (v : α) (l : List (Int × α)) :
    lookupA k (insertA k v l) = some v := by
  induction l with
  | nil => simp [insertA, lookupA]
  | cons p rest ih =>
    obtain ⟨k', v'⟩ := p
    by_cases h : k = k'
    · simp [insertA, lookupA, h]
    · simp [insertA, lookupA, h, ih]

theorem lookupA_insertA_ne {α : Type} {k k' : Int} (v : α) (l : List (Int × α))
    (h : k ≠ k') : lookupA k (insertA k' v l) = lookupA k l := by
  induction l with
  | nil => simp [insertA, lookupA, h]
  | cons p rest ih =>
    obtain ⟨k1, v1⟩ := p
    by_cases h1 : k' = k1
    · subst h1; simp [insertA, lookupA, h]
    · by_cases h2 : k = k1 <;> simp [insertA, lookupA, h1, h2, ih]

theorem lookupA_eraseA_self {α : Type} (k : Int) (l : List (Int × α)) :
    lookupA k (eraseA k l) = none := by
  induction l with
  | nil => rfl
  | cons p rest ih =>
    obtain ⟨k1, v1⟩ := p
    by_cases h : k1 = k
    · simpa [eraseA, h] using ih
    · have hk : ¬k = k1 := fun hh => h hh.symm
      simpa [eraseA, h, lookupA, hk] using ih

theorem lookupA_eraseA_ne {α : Type} {k k' : Int} (l : List (Int × α))
    (h : k ≠ k') : lookupA k (eraseA k' l) = lookupA k l := by
  induction l with
  | nil => rfl
  | cons p rest ih =>
    obtain ⟨k1, v1⟩ := p
    by_cases h1 : k1 = k'
    · subst h1
      simpa [eraseA, lookupA, h] using ih
    · by_cases h2 : k = k1
      · simp [eraseA, h1, lookupA, h2]
      · simp [eraseA, h1, lookupA, h2, ih]

theorem eraseA_idem {α : Type} (k : Int) (l : List (Int × α)) :
    eraseA k (eraseA k l) = eraseA k l := by
  induction l with
  | nil => rfl
  | cons p rest ih =>
    obtain ⟨k1, v1⟩ := p
    by_cases h : k1 = k <;> simp [eraseA, h, ih]

theorem mem_insertA {α : Type} {p : Int × α} {k : Int} {v : α} {l : List (Int × α)}
    (h : p ∈ insertA k v l) : p = (k, v) ∨ p ∈ l := by
  induction l with
  | nil => simpa [insertA] using h
  | cons q rest ih =>
    obtain ⟨k1, v1⟩ := q
    by_cases hq : k = k1
    · simp only [insertA, if_pos hq, List.mem_cons] at h
      rcases h with h | h
      · exact Or.inl h
      · exact Or.inr (List.mem_cons_of_mem _ h)
    · simp only [insertA, if_neg hq, List.mem_cons] at h
      rcases h with h | h
      · exact Or.inr (List.mem_cons.mpr (Or.inl h))
      · rcases ih h with h' | h'
        · exact Or.inl h'
        · exact Or.inr (List.mem_cons_of_mem _ h')

theorem lookupA_some_mem {α : Type} {k : Int} {v : α} {l : List (Int × α)}
    (h : lookupA k l = some v) : (k, v) ∈ l := by
  induction l with
  | nil => simp [lookupA] at h
  | cons p rest ih =>
    obtain ⟨k1, v1⟩ := p
    by_cases hk : k = k1
    · simp only [lookupA, if_pos hk] at h
      cases h
      subst hk
      exact List.mem_cons_self _ _
    · simp only [lookupA, if_neg hk] at h
      exact List.mem_cons_of_mem _ (ih h)

theorem runOp_CreateServerError (f : FakeClient) (op : Op) :
    (runOp f op).CreateServerError = f.CreateServerError := by
  cases op <;>
    simp only [runOp, runOpE, createServer, getServer, buildServer, deleteServer,
      unlinkServer, createSSHKey, getSSHKey, deleteSSHKey, createBGPSessions,
      getBGPSessions, getIPs, getLocations, getOSs, trackCall] <;>
    (repeat' split) <;> rfl

theorem runOp_nextServerID (f : FakeClient) (op : Op)
    (h : ∀ r, op ≠ Op.createServerOp r) :
    (runOp f op).nextServerID = f.nextServerID := by
  cases op with
  | createServerOp r => exact absurd rfl (h r)
  | _ =>
    simp only [runOp, runOpE, getServer, buildServer, deleteServer,
      unlinkServer, createSSHKey, getSSHKey, deleteSSHKey, createBGPSessions,
      getBGPSessions, getIPs, getLocations, getOSs, trackCall] <;>
    (repeat' split) <;> rfl

theorem createServer_eq (f : FakeClient) (r : CreateServerRequest)
    (h : f.CreateServerError = none) :
    createServer f r =
      (Except.ok { ServerID := f.nextServerID, Status := "building", Build := 1 },
        { trackCall f "CreateServer" with
          nextServerID := f.nextServerID + 1,
          servers := insertA f.nextServerID
            (createdServer f.oses f.locations f.nextServerID r) f.servers }) := by
  simp only [createServer, trackCall, h]

theorem issuedIds_cons_noncreate (f : FakeClient) (op : Op) (rest : List Op)
    (h : ∀ r, op ≠ Op.createServerOp r) :
    issuedIds f (op :: rest) = issuedIds (runOp f op) rest := by
  cases op with
  | createServerOp r => exact absurd rfl (h r)
  | _ => rfl

theorem countCreates_cons_noncreate (op : Op) (rest : List Op)
    (h : ∀ r, op ≠ Op.createServerOp r) :
    countCreates (op :: rest) = countCreates rest := by
  cases op with
  | createServerOp r => exact absurd rfl (h r)
  | _ => rfl

theorem issuedIds_characterization (ops : List Op) : ∀ (f : FakeClient),
    f.CreateServerError = none →
    issuedIds f ops =
      (List.range (countCreates ops)).map (fun k : Nat => f.nextServerID + (k : Int)) := by
  induction ops with
  | nil => intro f _; rfl
  | cons op rest ih =>
    intro f h
    by_cases hop : ∃ r, op = Op.createServerOp r
    · obtain ⟨r, rfl⟩ := hop
      have hcs := createServer_eq f r h
      have hnext : (createServer f r).2.nextServerID = f.nextServerID + 1 := by rw [hcs]
      have herr : (createServer f r).2.CreateServerError = none := by rw [hcs]; exact h
      have hii : issuedIds f (Op.createServerOp r :: rest) =
          f.nextServerID :: issuedIds (createServer f r).2 rest := by
        simp only [issuedIds]
        rw [hcs]
      rw [hii, ih _ herr, hnext]
      have hcc : countCreates (Op.createServerOp r :: rest) = countCreates rest + 1 := rfl
      rw [hcc, List.range_succ_eq_map, List.map_cons, List.map_map]
      refine congrArg₂ List.cons (by simp) ?_
      refine List.map_congr_left ?_
      intro a _
      simp only [Function.comp_apply]
      push_cast
      ring
    · have hnc : ∀ r, op ≠ Op.createServerOp r := fun r hr => hop ⟨r, hr⟩
      rw [issuedIds_cons_noncreate f op rest hnc, countCreates_cons_noncreate op rest hnc,
        ih _ (by rw [runOp_CreateServerError]; exact h), runOp_nextServerID f op hnc]

/-- C1: on a backend built by NewFakeClient, run through any sequence of
ClientInterface operations (no helper-injected state, no injected errors),
the server ids returned by the successful CreateServer calls are exactly
1000, 1001, 1002, ...: strictly increasing (so each is unique and greater
than every previously issued id), the first is 1000, and no id is ever
issued twice, even after DeleteServer or UnlinkServer calls. -/
theorem C1_created_ids_strictly_increasing (ops : List Op) :
    issuedIds newFakeClient ops =
      (List.range (countCreates ops)).map (fun k : Nat => 1000 + (k : Int)) ∧
    List.Chain' (fun a b : Int => a < b) (issuedIds newFakeClient ops) ∧
    (issuedIds newFakeClient ops).Nodup ∧
    (issuedIds newFakeClient ops).head? =
      (if countCreates ops = 0 then none else some 1000) := by
  have hchar : issuedIds newFakeClient ops =
      (List.range (countCreates ops)).map (fun k : Nat => 1000 + (k : Int)) :=
    issuedIds_characterization ops newFakeClient rfl
  have hpw : List.Pairwise (fun a b : Int => a < b)
      ((List.range (countCreates ops)).map (fun k : Nat => 1000 + (k : Int))) := by
    refine List.Pairwise.map _ ?_ (List.pairwise_lt_range _)
    intro a b hab
    omega
  refine ⟨hchar, ?_, ?_, ?_⟩
  · rw [hchar]; exact hpw.chain'
  · rw [hchar]; exact hpw.imp (fun hab => ne_of_lt hab)
  · rw [hchar]
    rcases hn : countCreates ops with _ | m
    · simp
    · simp [List.range_succ_eq_map]

theorem mem_eraseA {α : Type} {p : Int × α} {k : Int} {l : List (Int × α)}
    (h : p ∈ eraseA k l) : p ∈ l := by
  induction l with
  | nil => simpa [eraseA] using h
  | cons q rest ih =>
    obtain ⟨k1, v1⟩ := q
    by_cases h1 : k1 = k
    · simp only [eraseA, if_pos h1] at h
      exact List.mem_cons_of_mem _ (ih h)
    · simp only [eraseA, if_neg h1, List.mem_cons] at h
      rcases h with h | h
      · exact List.mem_cons.mpr (Or.inl h)
      · exact List.mem_cons_of_mem _ (ih h)

/-- Every stored server id is below the allocation counter. This is the
id-freshness invariant of states reachable from NewFakeClient. -/
def serversBelow (f : FakeClient) : Prop :=
  ∀ p ∈ f.servers, p.1 < f.nextServerID

theorem runOp_serversBelow (f : FakeClient) (op : Op) (h : serversBelow f) :
    serversBelow (runOp f op) := by
  cases op with
  | createServerOp r =>
    simp only [runOp, runOpE, createServer, trackCall]
    split
    · exact h
    · intro p hp
      rcases mem_insertA hp with hp | hp
      · subst hp
        show f.nextServerID < f.nextServerID + 1
        omega
      · have hlt := h p hp
        show p.1 < f.nextServerID + 1
        omega
  | buildServerOp bid r =>
    simp only [runOp, runOpE, buildServer, trackCall]
    split
    · exact h
    · split
      · exact h
      · next server heq =>
        intro p hp
        rcases mem_insertA hp with hp | hp
        · subst hp
          simpa using h _ (lookupA_some_mem heq)
        · simpa using h p hp
  | deleteServerOp did cb =>
    simp only [runOp, runOpE, deleteServer, trackCall]
    split
    · exact h
    · split
      · exact h
      · next server heq =>
        intro p hp
        rcases mem_insertA hp with hp | hp
        · subst hp
          simpa using h _ (lookupA_some_mem heq)
        · simpa using h p hp
  | unlinkServerOp uid =>
    simp only [runOp, runOpE, unlinkServer, trackCall]
    split
    · exact h
    · intro p hp
      simpa using h p (mem_eraseA hp)
  | _ =>
    simp only [runOp, runOpE, getServer, createSSHKey, getSSHKey, deleteSSHKey,
      createBGPSessions, getBGPSessions, getIPs, getLocations, getOSs, trackCall]
    (repeat' split) <;> (intro p hp <;> simpa using h p hp)

theorem runOps_serversBelow (ops : List Op) : ∀ (f : FakeClient),
    serversBelow f → serversBelow (runOps f ops) := by
  induction ops with
  | nil => exact fun f h => h
  | cons op rest ih => exact fun f h => ih (runOp f op) (runOp_serversBelow f op h)

theorem newFakeClient_serversBelow : serversBelow newFakeClient := by
  intro p hp
  simp [newFakeClient] at hp

theorem runOp_UnlinkServerError (f : FakeClient) (op : Op) :
    (runOp f op).UnlinkServerError = f.UnlinkServerError := by
  cases op <;>
    simp only [runOp, runOpE, createServer, getServer, buildServer, deleteServer,
      unlinkServer, createSSHKey, getSSHKey, deleteSSHKey, createBGPSessions,
      getBGPSessions, getIPs, getLocations, getOSs, trackCall] <;>
    (repeat' split) <;> rfl

theorem runOp_DeleteServerError (f : FakeClient) (op : Op) :
    (runOp f op).DeleteServerError = f.DeleteServerError := by
  cases op <;>
    simp only [runOp, runOpE, createServer, getServer, buildServer, deleteServer,
      unlinkServer, createSSHKey, getSSHKey, deleteSSHKey, createBGPSessions,
      getBGPSessions, getIPs, getLocations, getOSs, trackCall] <;>
    (repeat' split) <;> rfl

theorem runOps_UnlinkServerError (ops : List Op) : ∀ (f : FakeClient),
    (runOps f ops).UnlinkServerError = f.UnlinkServerError := by
  induction ops with
  | nil => exact fun _ => rfl
  | cons op rest ih =>
    exact fun f => (ih (runOp f op)).trans (runOp_UnlinkServerError f op)

theorem runOps_DeleteServerError (ops : List Op) : ∀ (f : FakeClient),
    (runOps f ops).DeleteServerError = f.DeleteServerError := by
  induction ops with
  | nil => exact fun _ => rfl
  | cons op rest ih =>
    exact fun f => (ih (runOp f op)).trans (runOp_DeleteServerError f op)

/-- One-step presence-and-status lemma over any state satisfying the
id-freshness invariant and carrying no injected unlink/delete errors: a
stored server's record disappears exactly under UnlinkServer on its id;
under every other operation it stays present, with its status unchanged
unless the operation is DeleteServer on its id (status becomes TERMINATED)
or BuildServer on its id (status becomes RUNNING); and DeleteServer on its
id retains the record with status TERMINATED. -/
theorem step_presence (f : FakeClient) (hbelow : serversBelow f)
    (hu : f.UnlinkServerError = none) (hd : f.DeleteServerError = none)
    (op : Op) (id : Int) (s : Server)
    (h1 : lookupA id f.servers = some s) :
    (op = Op.unlinkServerOp id → lookupA id (runOp f op).servers = none) ∧
    (op ≠ Op.unlinkServerOp id →
      ∃ s', lookupA id (runOp f op).servers = some s' ∧
        (s'.ServerStatus = s.ServerStatus ∨
          ((∃ cb, op = Op.deleteServerOp id cb) ∧ s'.ServerStatus = "TERMINATED") ∨
          (∃ r, op = Op.buildServerOp id r ∧ s'.ServerStatus = "RUNNING"))) ∧
    (∀ cb, op = Op.deleteServerOp id cb →
      ∃ s', lookupA id (runOp f op).servers = some s' ∧
        s'.ServerStatus = "TERMINATED") := by
  cases op with
  | createServerOp r =>
    refine ⟨fun heq => Op.noConfusion heq, fun _ => ?_,
      fun cb heq => Op.noConfusion heq⟩
    have hid : id ≠ f.nextServerID := by
      have := hbelow (id, s) (lookupA_some_mem h1)
      simp only at this
      omega
    simp only [runOp, runOpE, createServer, trackCall]
    split
    · exact ⟨s, h1, Or.inl rfl⟩
    · refine ⟨s, ?_, Or.inl rfl⟩
      show lookupA id (insertA f.nextServerID
        (createdServer f.oses f.locations f.nextServerID r) f.servers) = some s
      rw [lookupA_insertA_ne _ _ hid]
      exact h1
  | buildServerOp bid r =>
    refine ⟨fun heq => Op.noConfusion heq, fun _ => ?_,
      fun cb heq => Op.noConfusion heq⟩
    simp only [runOp, runOpE, buildServer, trackCall]
    split
    · exact ⟨s, h1, Or.inl rfl⟩
    · split
      · exact ⟨s, h1, Or.inl rfl⟩
      · next server heq =>
        by_cases hbd : id = bid
        · subst hbd
          refine ⟨builtServer f.oses f.locations server r, ?_,
            Or.inr (Or.inr ⟨r, rfl, rfl⟩)⟩
          show lookupA id (insertA id
            (builtServer f.oses f.locations server r) f.servers) = _
          rw [lookupA_insertA_self]
        · refine ⟨s, ?_, Or.inl rfl⟩
          show lookupA id (insertA bid
            (builtServer f.oses f.locations server r) f.servers) = some s
          rw [lookupA_insertA_ne _ _ hbd]
          exact h1
  | deleteServerOp did cb =>
    have hretain : ∀ hdd : id = did,
        lookupA id (runOp f (Op.deleteServerOp did cb)).servers =
          some { s with ServerStatus := "TERMINATED" } := by
      intro hdd
      subst hdd
      simp only [runOp, runOpE, deleteServer, trackCall, hd]
      split
      · next hmiss =>
        rw [show lookupA id f.servers = none from hmiss] at h1
        cases h1
      · next server heq =>
        have hss : server = s := by
          have := (show lookupA id f.servers = some server from heq).symm.trans h1
          exact Option.some.inj this
        subst hss
        show lookupA id (insertA id
          { server with ServerStatus := "TERMINATED" } f.servers) = _
        rw [lookupA_insertA_self]
    refine ⟨fun heq => Op.noConfusion heq, fun _ => ?_, fun cb' heq => ?_⟩
    · by_cases hdd : id = did
      · exact ⟨{ s with ServerStatus := "TERMINATED" }, hretain hdd,
          Or.inr (Or.inl ⟨⟨cb, by rw [hdd]⟩, rfl⟩)⟩
      · refine ⟨s, ?_, Or.inl rfl⟩
        simp only [runOp, runOpE, deleteServer, trackCall, hd]
        split
        · exact h1
        · next server heq =>
          show lookupA id (insertA did
            { server with ServerStatus := "TERMINATED" } f.servers) = some s
          rw [lookupA_insertA_ne _ _ hdd]
          exact h1
    · have hdd : did = id := by cases heq; rfl
      exact ⟨{ s with ServerStatus := "TERMINATED" }, hretain hdd.symm, rfl⟩
  | unlinkServerOp uid =>
    refine ⟨fun heq => ?_, fun hne => ?_, fun cb heq => Op.noConfusion heq⟩
    · have huid : uid = id := by cases heq; rfl
      subst huid
      simp only [runOp, runOpE, unlinkServer, trackCall, hu]
      show lookupA uid (eraseA uid f.servers) = none
      exact lookupA_eraseA_self uid f.servers
    · have huid : id ≠ uid := by
        intro hcontra
        exact hne (by rw [hcontra])
      refine ⟨s, ?_, Or.inl rfl⟩
      simp only [runOp, runOpE, unlinkServer, trackCall, hu]
      show lookupA id (eraseA uid f.servers) = some s
      rw [lookupA_eraseA_ne _ huid]
      exact h1
  | _ =>
    refine ⟨fun heq => Op.noConfusion heq, fun _ => ?_,
      fun cb heq => Op.noConfusion heq⟩
    simp only [runOp, runOpE, getServer, createSSHKey, getSSHKey, deleteSSHKey,
      createBGPSessions, getBGPSessions, getIPs, getLocations, getOSs, trackCall]
    (repeat' split) <;> exact ⟨s, h1, Or.inl rfl⟩

/-- The creation request of the spec's concrete scenario. -/
def req0 : CreateServerRequest := { FQDN := "test.example.com", Location := 1, Image := 1 }

/-- The server record stored for `req0` on a fresh backend. -/
def srv0 : Server :=
  { ID := 1000, Name := "test.example.com", OS := "Ubuntu 22.04 LTS", OSID := 1,
    Location := "AMS Amsterdam", LocationID := 1, PlanID := 1,
    ServerStatus := "RUNNING", PowerStatus := "on", Installed := 1,
    PrimaryIPv4 := "192.0.2.232", PrimaryIPv6 := "2001:db8::3e8" }

/-- A rebuild request used to exercise BuildServer. -/
def breq0 : BuildServerRequest := { FQDN := "rebuilt.example.com", Location := 2, Image := 2 }

/-- A creation request whose OS and location ids match no reference entry. -/
def req99 : CreateServerRequest := { FQDN := "x", Location := 99, Image := 99 }

theorem deleteServer_eq_found (f : FakeClient) (id : Int) (cb : Bool) (s : Server)
    (herr : f.DeleteServerError = none) (hs : lookupA id f.servers = some s) :
    deleteServer f id cb =
      (Except.ok (),
        { trackCall f ("DeleteServer(" ++ toString id ++ ", " ++ toString cb ++ ")") with
          servers := insertA id { s with ServerStatus := "TERMINATED" } f.servers }) := by
  simp only [deleteServer, trackCall, herr, hs]

theorem deleteServer_eq_missing (f : FakeClient) (id : Int) (cb : Bool)
    (herr : f.DeleteServerError = none) (hs : lookupA id f.servers = none) :
    deleteServer f id cb =
      (Except.error (serverNotFound id),
        trackCall f ("DeleteServer(" ++ toString id ++ ", " ++ toString cb ++ ")")) := by
  simp only [deleteServer, trackCall, herr, hs]

theorem getServer_eq_found (f : FakeClient) (id : Int) (s : Server)
    (herr : f.GetServerError = none) (hs : lookupA id f.servers = some s) :
    (getServer f id).1 = Except.ok s := by
  simp only [getServer, trackCall, herr, hs]

theorem getServer_eq_missing (f : FakeClient) (id : Int)
    (herr : f.GetServerError = none) (hs : lookupA id f.servers = none) :
    (getServer f id).1 = Except.error (serverNotFound id) := by
  simp only [getServer, trackCall, herr, hs]

theorem unlinkServer_eq (f : FakeClient) (id : Int) (hu : f.UnlinkServerError = none) :
    unlinkServer f id =
      (Except.ok (), { trackCall f ("UnlinkServer(" ++ toString id ++ ")") with
        servers := eraseA id f.servers }) := by
  simp only [unlinkServer, trackCall, hu]

/-- C2 (counterexample to the claim as stated): after DeleteServer marks
server 1000 TERMINATED, BuildServer on the same id moves the stored record
back to RUNNING — an operation other than the RUNNING→TERMINATED soft delete
does change a stored server's status. -/
theorem C2_counterexample_build_revives :
    ((lookupA 1000 (deleteServer (createServer newFakeClient req0).2 1000 false).2.servers).map
        Server.ServerStatus = some "TERMINATED") ∧
    ((lookupA 1000 (buildServer (deleteServer (createServer newFakeClient req0).2 1000 false).2
        1000 breq0).2.servers).map Server.ServerStatus = some "RUNNING") := by
  decide

/-- C2 (amended): for every server record stored in a state reachable from
NewFakeClient through ClientInterface operations, an operation removes the
record exactly when it is UnlinkServer on its id; every other operation
retains the record, changing its status only via DeleteServer on its id
(status becomes TERMINATED, record retained) or BuildServer on its id
(status is forced back to RUNNING — so a TERMINATED server can return to
RUNNING via BuildServer, the one transition the original claim ruled out). -/
theorem C2_status_transitions (ops : List Op) (op : Op) (id : Int) (s : Server)
    (h1 : lookupA id (runOps newFakeClient ops).servers = some s) :
    (op = Op.unlinkServerOp id →
      lookupA id (runOp (runOps newFakeClient ops) op).servers = none) ∧
    (op ≠ Op.unlinkServerOp id →
      ∃ s', lookupA id (runOp (runOps newFakeClient ops) op).servers = some s' ∧
        (s'.ServerStatus = s.ServerStatus ∨
          ((∃ cb, op = Op.deleteServerOp id cb) ∧ s'.ServerStatus = "TERMINATED") ∨
          (∃ r, op = Op.buildServerOp id r ∧ s'.ServerStatus = "RUNNING"))) ∧
    (∀ cb, op = Op.deleteServerOp id cb →
      ∃ s', lookupA id (runOp (runOps newFakeClient ops) op).servers = some s' ∧
        s'.ServerStatus = "TERMINATED") :=
  step_presence _ (runOps_serversBelow ops newFakeClient newFakeClient_serversBelow)
    ((runOps_UnlinkServerError ops newFakeClient).trans rfl)
    ((runOps_DeleteServerError ops newFakeClient).trans rfl)
    op id s h1

theorem C2_status_transitions_witness :
    (Op.deleteServerOp 1000 false = Op.unlinkServerOp 1000 →
      lookupA 1000 (runOp (runOps newFakeClient [Op.createServerOp req0])
        (Op.deleteServerOp 1000 false)).servers = none) ∧
    (Op.deleteServerOp 1000 false ≠ Op.unlinkServerOp 1000 →
      ∃ s', lookupA 1000 (runOp (runOps newFakeClient [Op.createServerOp req0])
          (Op.deleteServerOp 1000 false)).servers = some s' ∧
        (s'.ServerStatus = srv0.ServerStatus ∨
          ((∃ cb, Op.deleteServerOp 1000 false = Op.deleteServerOp 1000 cb) ∧
            s'.ServerStatus = "TERMINATED") ∨
          (∃ r, Op.deleteServerOp 1000 false = Op.buildServerOp 1000 r ∧
            s'.ServerStatus = "RUNNING"))) ∧
    (∀ cb, Op.deleteServerOp 1000 false = Op.deleteServerOp 1000 cb →
      ∃ s', lookupA 1000 (runOp (runOps newFakeClient [Op.createServerOp req0])
          (Op.deleteServerOp 1000 false)).servers = some s' ∧
        s'.ServerStatus = "TERMINATED") :=
  C2_status_transitions [Op.createServerOp req0] (Op.deleteServerOp 1000 false)
    1000 srv0 (by decide)

/-- C3: on a fresh FakeClient, CreateServer with FQDN test.example.com,
Location 1, Image 1 returns the build echo (id 1000, status building,
build 1) and stores the expected server (RUNNING, AMS Amsterdam,
Ubuntu 22.04 LTS, 192.0.2.232 = 1000 mod 256, 2001:db8::3e8 = 1000 in
hex); and for any request whose Image or Location id matches no reference
entry, creation still succeeds and the corresponding name field is empty. -/
theorem C3_create_scenario (r : CreateServerRequest) :
    ((createServer newFakeClient req0).1 =
        Except.ok { ServerID := 1000, Status := "building", Build := 1 } ∧
      lookupA 1000 (createServer newFakeClient req0).2.servers = some srv0) ∧
    ((∀ o ∈ newFakeClient.oses, o.ID ≠ r.Image) →
      ∃ s, (createServer newFakeClient r).1 =
          Except.ok { ServerID := 1000, Status := "building", Build := 1 } ∧
        lookupA 1000 (createServer newFakeClient r).2.servers = some s ∧ s.OS = "") ∧
    ((∀ l ∈ newFakeClient.locations, l.ID ≠ r.Location) →
      ∃ s, (createServer newFakeClient r).1 =
          Except.ok { ServerID := 1000, Status := "building", Build := 1 } ∧
        lookupA 1000 (createServer newFakeClient r).2.servers = some s ∧
        s.Location = "") := by
  refine ⟨by decide, ?_, ?_⟩
  · intro hno
    refine ⟨createdServer newFakeClient.oses newFakeClient.locations 1000 r, rfl, ?_, ?_⟩
    · exact lookupA_insertA_self 1000 _ []
    · have hfind : newFakeClient.oses.find? (fun o => o.ID == r.Image) = none := by
        rw [List.find?_eq_none]
        intro o ho
        simpa using hno o ho
      simp [createdServer, hfind]
  · intro hno
    refine ⟨createdServer newFakeClient.oses newFakeClient.locations 1000 r, rfl, ?_, ?_⟩
    · exact lookupA_insertA_self 1000 _ []
    · have hfind : newFakeClient.locations.find? (fun l => l.ID == r.Location) = none := by
        rw [List.find?_eq_none]
        intro l hl
        simpa using hno l hl
      simp [createdServer, hfind]

theorem C3_create_scenario_witness :
    ∃ s, (createServer newFakeClient req99).1 =
        Except.ok { ServerID := 1000, Status := "building", Build := 1 } ∧
      lookupA 1000 (createServer newFakeClient req99).2.servers = some s ∧ s.OS = "" :=
  (C3_create_scenario req99).2.1 (by decide)

/-- C4: with no injected errors, DeleteServer on a stored id succeeds and a
subsequent GetServer on that id succeeds with status TERMINATED (never
NotFound); DeleteServer on an absent id fails with the not-found error and
leaves the entity state unchanged. -/
theorem C4_delete_then_get (f : FakeClient) (id : Int) (cb : Bool)
    (hdel : f.DeleteServerError = none) (hget : f.GetServerError = none) :
    (∀ s, lookupA id f.servers = some s →
      (deleteServer f id cb).1 = Except.ok () ∧
      ∃ s', (getServer (deleteServer f id cb).2 id).1 = Except.ok s' ∧
        s'.ServerStatus = "TERMINATED") ∧
    (lookupA id f.servers = none →
      (deleteServer f id cb).1 = Except.error (serverNotFound id) ∧
      ((deleteServer f id cb).2).entities = f.entities) := by
  constructor
  · intro s hs
    rw [deleteServer_eq_found f id cb s hdel hs]
    refine ⟨rfl, { s with ServerStatus := "TERMINATED" }, ?_, rfl⟩
    exact getServer_eq_found _ id _ hget (lookupA_insertA_self id _ f.servers)
  · intro hnone
    rw [deleteServer_eq_missing f id cb hdel hnone]
    exact ⟨rfl, rfl⟩

theorem C4_delete_then_get_witness :
    ((deleteServer (createServer newFakeClient req0).2 1000 true).1 = Except.ok () ∧
      ∃ s', (getServer (deleteServer (createServer newFakeClient req0).2 1000 true).2 1000).1 =
          Except.ok s' ∧ s'.ServerStatus = "TERMINATED") ∧
    ((deleteServer (createServer newFakeClient req0).2 500 true).1 =
        Except.error (serverNotFound 500) ∧
      ((deleteServer (createServer newFakeClient req0).2 500 true).2).entities =
        ((createServer newFakeClient req0).2).entities) :=
  ⟨(C4_delete_then_get (createServer newFakeClient req0).2 1000 true rfl rfl).1 srv0 (by decide),
   (C4_delete_then_get (createServer newFakeClient req0).2 500 true rfl rfl).2 (by decide)⟩

/-- C5: with no injected errors, UnlinkServer always returns success (present
or absent id), a subsequent GetServer on that id fails with the not-found
error, and a second UnlinkServer also succeeds and leaves the entity state
exactly as the first left it. -/
theorem C5_unlink_idempotent (f : FakeClient) (id : Int)
    (hu : f.UnlinkServerError = none) (hg : f.GetServerError = none) :
    (unlinkServer f id).1 = Except.ok () ∧
    (getServer (unlinkServer f id).2 id).1 = Except.error (serverNotFound id) ∧
    (unlinkServer (unlinkServer f id).2 id).1 = Except.ok () ∧
    ((unlinkServer (unlinkServer f id).2 id).2).entities =
      ((unlinkServer f id).2).entities := by
  have h1 := unlinkServer_eq f id hu
  have h2 := unlinkServer_eq (unlinkServer f id).2 id (by rw [h1]; exact hu)
  refine ⟨by rw [h1], ?_, by rw [h2], ?_⟩
  · rw [h1]
    exact getServer_eq_missing _ id hg (lookupA_eraseA_self id f.servers)
  · rw [h2, h1]
    simp [FakeClient.entities, trackCall, eraseA_idem]

theorem C5_unlink_idempotent_witness :
    (unlinkServer newFakeClient 7).1 = Except.ok () ∧
    (getServer (unlinkServer newFakeClient 7).2 7).1 = Except.error (serverNotFound 7) ∧
    (unlinkServer (unlinkServer newFakeClient 7).2 7).1 = Except.ok () ∧
    ((unlinkServer (unlinkServer newFakeClient 7).2 7).2).entities =
      ((unlinkServer newFakeClient 7).2).entities :=
  C5_unlink_idempotent newFakeClient 7 rfl rfl

theorem getIPs_eq_stored (f : FakeClient) (id : Int) (st : IPs)
    (h : f.GetIPsError = none) (hst : lookupA id f.ips = some st) :
    (getIPs f id).1 = Except.ok st := by
  simp only [getIPs, trackCall, h, hst]

theorem getIPs_eq_synth (f : FakeClient) (id : Int) (s : Server)
    (h : f.GetIPsError = none) (hst : lookupA id f.ips = none)
    (hs : lookupA id f.servers = some s) :
    (getIPs f id).1 = Except.ok
      { IPv4 := [{ ID := 1, IP := "192.0.2." ++ toString (goMod id 256),
                   Primary := 1, Gateway := "192.0.2.1", Netmask := "255.255.255.0" }]
        IPv6 := [{ ID := 2, IP := "2001:db8::" ++ intToHex id,
                   Primary := 1, Gateway := "2001:db8::1",
                   Netmask := "ffff:ffff:ffff:ffff::" }] } := by
  simp only [getIPs, trackCall, h, hst, hs]

theorem getIPs_eq_empty (f : FakeClient) (id : Int)
    (h : f.GetIPsError = none) (hst : lookupA id f.ips = none)
    (hs : lookupA id f.servers = none) :
    (getIPs f id).1 = Except.ok { IPv4 := [], IPv6 := [] } := by
  simp only [getIPs, trackCall, h, hst, hs]

/-- C6: with no injected error, GetIPs never fails: it returns the
explicitly stored allocation when one exists, else — when the server
exists — an allocation with exactly one synthesized IPv4 (192.0.2.(id mod
256)) and one synthesized IPv6 (2001:db8::(id in hex)) address, else an
empty allocation with no error. -/
theorem C6_getIPs_total (f : FakeClient) (id : Int) (h : f.GetIPsError = none) :
    (∃ v, (getIPs f id).1 = Except.ok v) ∧
    (∀ st, lookupA id f.ips = some st → (getIPs f id).1 = Except.ok st) ∧
    (lookupA id f.ips = none → ∀ s, lookupA id f.servers = some s →
      ∃ a, (getIPs f id).1 = Except.ok a ∧
        a.IPv4.map (fun p => p.IP) = ["192.0.2." ++ toString (goMod id 256)] ∧
        a.IPv6.map (fun p => p.IP) = ["2001:db8::" ++ intToHex id]) ∧
    (lookupA id f.ips = none → lookupA id f.servers = none →
      (getIPs f id).1 = Except.ok { IPv4 := [], IPv6 := [] }) := by
  refine ⟨?_, ?_, ?_, ?_⟩
  · rcases hst : lookupA id f.ips with _ | st
    · rcases hs : lookupA id f.servers with _ | s
      · exact ⟨_, getIPs_eq_empty f id h hst hs⟩
      · exact ⟨_, getIPs_eq_synth f id s h hst hs⟩
    · exact ⟨st, getIPs_eq_stored f id st h hst⟩
  · intro st hst
    exact getIPs_eq_stored f id st h hst
  · intro hst s hs
    exact ⟨_, getIPs_eq_synth f id s h hst hs, rfl, rfl⟩
  · intro hst hs
    exact getIPs_eq_empty f id h hst hs

theorem C6_getIPs_total_witness :
    (∃ v, (getIPs newFakeClient 3).1 = Except.ok v) ∧
    (getIPs newFakeClient 3).1 = Except.ok { IPv4 := [], IPv6 := [] } :=
  ⟨(C6_getIPs_total newFakeClient 3 rfl).1,
   (C6_getIPs_total newFakeClient 3 rfl).2.2.2 (by decide) (by decide)⟩

/-- C7: whenever the injected-error field an operation consults is set to
some error e, the operation returns exactly e and leaves the entity state
(servers, SSH keys, BGP sessions, IP allocations, reference lists, and all
id counters) unchanged. -/
theorem C7_injected_error_shortcircuit (f : FakeClient) (op : Op) (e : GoError)
    (h : opError f op = some e) :
    (runOpE f op).1 = Except.error e ∧ ((runOpE f op).2).entities = f.entities := by
  cases op <;>
    simp only [opError] at h <;>
    simp [runOpE, createServer, getServer, buildServer, deleteServer, unlinkServer,
      createSSHKey, getSSHKey, deleteSSHKey, createBGPSessions, getBGPSessions, getIPs,
      getLocations, getOSs, trackCall, h, FakeClient.entities, Except.map]

/-- A fresh backend with one injected CreateServer error, for the C7 witness. -/
def errClient : FakeClient :=
  { newFakeClient with CreateServerError := some { message := "boom" } }

theorem C7_injected_error_shortcircuit_witness :
    (runOpE errClient (Op.createServerOp req0)).1 = Except.error { message := "boom" } ∧
    ((runOpE errClient (Op.createServerOp req0)).2).entities = errClient.entities :=
  C7_injected_error_shortcircuit errClient (Op.createServerOp req0) { message := "boom" } rfl

/-- C8: the cancelBilling flag of DeleteServer and the redundant flag of
CreateBGPSessions never influence the returned value or the resulting
entity state (only the call-log string records them). -/
theorem C8_flags_ignored (f : FakeClient) (id : Int) (b1 b2 : Bool)
    (sid gid : Int) (v6 r1 r2 : Bool) :
    (deleteServer f id b1).1 = (deleteServer f id b2).1 ∧
    ((deleteServer f id b1).2).entities = ((deleteServer f id b2).2).entities ∧
    (createBGPSessions f sid gid v6 r1).1 = (createBGPSessions f sid gid v6 r2).1 ∧
    ((createBGPSessions f sid gid v6 r1).2).entities =
      ((createBGPSessions f sid gid v6 r2).2).entities := by
  refine ⟨?_, ?_, ?_, ?_⟩ <;>
    simp only [deleteServer, createBGPSessions, trackCall, FakeClient.entities] <;>
    (repeat' split) <;> rfl

/-- Severity of a provider diagnostic. -/
inductive Severity where
  | error
  | warning
  deriving DecidableEq, Repr

/-- One provider diagnostic (summary/detail, as in SDK diag.Diagnostic and
the framework's ConfigureResponse diagnostics). -/
structure Diagnostic where
  severity : Severity
  summary : String
  detail : String
  deriving DecidableEq, Repr

/-- Which gona client constructor the provider invoked: NewClient (production
default endpoint) or NewClientCustom (explicit endpoint). -/
inductive GonaClient where
  | production (apiKey : String)
  | custom (apiKey : String) (apiUrl : String)
  deriving DecidableEq, Repr

/-- Detail text of the legacy provider's missing-key diagnostic (the Go
source spreads it over two lines of a raw string). -/
def legacyDetail : String :=
  "Unable to find NetActuate API key. It can be set with either NETACTUATE_API_KEY environment\nvariable or 'api_key' property"

/-- providerConfigure (legacy SDK v2 provider). `apiKey` is the value
`d.Get("api_key")` yields — the configured value, with the schema's
EnvDefaultFunc falling back to NETACTUATE_API_KEY; it is the empty string
exactly when the field is empty/unset and the variable is unset. -/
def providerConfigure (apiKey apiUrl : String) : Option GonaClient × List Diagnostic :=
  if apiKey = "" then
    (none, [{ severity := Severity.error,
              summary := "Unable to create NetActuate API client",
              detail := legacyDetail }])
  else if apiUrl = "" then (some (GonaClient.production apiKey), [])
  else (some (GonaClient.custom apiKey apiUrl), [])

/-- The framework provider's configure response: diagnostics plus the client
handed to data sources and resources. -/
structure ConfigureResponse where
  diagnostics : List Diagnostic := []
  resourceData : Option GonaClient := none
  dataSourceData : Option GonaClient := none
  deriving DecidableEq, Repr

/-- FrameworkProvider.Configure. Reads api_key from the configuration only
(this path never consults the environment variable, per the code comment),
so with the variable unset `apiKey` is exactly the configured value. -/
def frameworkConfigure (apiKey apiUrl : String) : ConfigureResponse :=
  if apiKey = "" then
    { diagnostics :=
        [{ severity := Severity.error
           summary := "Unable to create NetActuate API client"
           detail := "Unable to find NetActuate API key. It can be set with either NETACTUATE_API_KEY environment variable or 'api_key' property" }] }
  else
    let client := if apiUrl = "" then GonaClient.production apiKey
      else GonaClient.custom apiKey apiUrl
    { diagnostics := [], resourceData := some client, dataSourceData := some client }

/-- C9: with an empty effective api_key (field empty, environment variable
unset) both providers produce exactly one error diagnostic with summary
"Unable to create NetActuate API client" and no client; with a non-empty
key both succeed without diagnostics and build exactly one client, against
the custom endpoint when api_url is non-empty and the production default
otherwise. -/
theorem C9_provider_configure (apiKey apiUrl : String) :
    (apiKey = "" →
      (providerConfigure apiKey apiUrl).1 = none ∧
      (providerConfigure apiKey apiUrl).2.map Diagnostic.summary =
        ["Unable to create NetActuate API client"] ∧
      (providerConfigure apiKey apiUrl).2.map Diagnostic.severity = [Severity.error] ∧
      (frameworkConfigure apiKey apiUrl).resourceData = none ∧
      (frameworkConfigure apiKey apiUrl).dataSourceData = none ∧
      (frameworkConfigure apiKey apiUrl).diagnostics.map Diagnostic.summary =
        ["Unable to create NetActuate API client"] ∧
      (frameworkConfigure apiKey apiUrl).diagnostics.map Diagnostic.severity =
        [Severity.error]) ∧
    (apiKey ≠ "" →
      (providerConfigure apiKey apiUrl).2 = [] ∧
      (frameworkConfigure apiKey apiUrl).diagnostics = [] ∧
      (providerConfigure apiKey apiUrl).1 =
        some (if apiUrl = "" then GonaClient.production apiKey
          else GonaClient.custom apiKey apiUrl) ∧
      (frameworkConfigure apiKey apiUrl).resourceData =
        some (if apiUrl = "" then GonaClient.production apiKey
          else GonaClient.custom apiKey apiUrl) ∧
      (frameworkConfigure apiKey apiUrl).dataSourceData =
        some (if apiUrl = "" then GonaClient.production apiKey
          else GonaClient.custom apiKey apiUrl)) := by
  constructor
  · intro h
    subst h
    simp [providerConfigure, frameworkConfigure]
  · intro h
    by_cases hu : apiUrl = "" <;>
      simp [providerConfigure, frameworkConfigure, h, hu]

theorem C9_provider_configure_witness :
    (providerConfigure "" "").2.map Diagnostic.summary =
      ["Unable to create NetActuate API client"] ∧
    (providerConfigure "key" "").1 = some (GonaClient.production "key") ∧
    (frameworkConfigure "key" "https://api.example").resourceData =
      some (GonaClient.custom "key" "https://api.example") :=
  ⟨((C9_provider_configure "" "").1 rfl).2.1,
   by
    have h := ((C9_provider_configure "key" "").2 (by decide)).2.2.1
    simpa using h,
   by
    have h := ((C9_provider_configure "key" "https://api.example").2 (by decide)).2.2.2.1
    simpa using h⟩

/-- The record a test pre-seeds at id 1000 for the C10 scenario. -/
def preServer : Server := { ID := 1000, Name := "preexisting", ServerStatus := "RUNNING" }

/-- C10: AddServer inserts at the record's own id without advancing the id
counter, so a following CreateServer on a fresh backend allocates the same
id 1000 and silently replaces the helper-inserted record. -/
theorem C10_addServer_counter_collision :
    (addServer newFakeClient preServer).nextServerID = 1000 ∧
    lookupA 1000 (addServer newFakeClient preServer).servers = some preServer ∧
    (createServer (addServer newFakeClient preServer) req0).1 =
      Except.ok { ServerID := 1000, Status := "building", Build := 1 } ∧
    lookupA 1000 (createServer (addServer newFakeClient preServer) req0).2.servers =
      some srv0 ∧
    srv0 ≠ preServer := by decide

end NetActuate
